import Mathlib

/-!
Verification development for the anandabazar disaster-news scraper
(`script.py`).  The Python source is shallowly embedded: module-level
constants become Lean constants, pure functions become Lean functions,
the mutable globals (`stats`, `processed_urls`) and the driver pool
become explicit state threaded through `scrape_page`, and the
exception-driven retry loop becomes a function of an attempt oracle.
-/

namespace Scraper

/-- Embeds `keywords` (script.py lines 26-31): the disaster taxonomy,
an ordered association list from category id to trigger terms
(Python dicts preserve insertion order). -/
def keywords : List (String × List String) :=
  [("flood", ["flood", "inundation", "waterlogging", "deluge"]),
   ("fire", ["fire", "blaze", "inferno", "burn", "flames"]),
   ("earthquake", ["earthquake", "tremor", "seismic"]),
   ("cyclone", ["cyclone", "storm", "hurricane", "typhoon"])]

/-- Python `re` word character (`\w`), restricted to its ASCII fragment
`[A-Za-z0-9_]`; every trigger term and every text in the claims is
ASCII. -/
def isWordChar (c : Char) : Bool :=
  c.isAlphanum || c = '_'

/-- Whether an optional character (none = string edge) counts as a word
character; the string edge is non-word, as in regex `\b`. -/
def isWordOpt : Option Char → Bool
  | none => false
  | some c => isWordChar c

/-- Regex `\b`: a word boundary sits between two positions exactly when
one side is a word character and the other is not (string edges count
as non-word). -/
def boundary (l r : Option Char) : Bool :=
  isWordOpt l != isWordOpt r

/-- The term `term` occurs at the current position (the character before
which is `prev`) of the text `s`, flanked by `\b` on both sides:
`s` starts with `term`, there is a boundary between `prev` and the
first matched character, and a boundary between the last matched
character and the character following the match. -/
def wholeWordAt (prev : Option Char) (term s : List Char) : Bool :=
  term.isPrefixOf s
    && boundary prev s.head?
    && boundary term.getLast? ((s.drop term.length).head?)

/-- Scans the text for a `\b term \b` occurrence at any position, as
`re.search` does; `prev` is the character just before the scan
position (`none` at the start of the string). -/
def searchWholeWord (term : List Char) (prev : Option Char) : List Char → Bool
  | [] => false
  | c :: cs => wholeWordAt prev term (c :: cs) || searchWholeWord term (some c) cs

/-- Python `str.lower()` on a character sequence.  `Char.toLower`
lowers exactly the ASCII range, which covers every trigger term and
every text appearing in the claims. -/
def lowerList (l : List Char) : List Char :=
  l.map Char.toLower

/-- Embeds `contains_keywords` (script.py lines 140-154): lowercases the
text, and for each category in order tests the regex
`\b(?:t1|...|tn)\b` built from its lowercased terms (a match of the
alternation is a whole-word match of some term); returns the list of
matching category ids in taxonomy order. -/
def contains_keywords (text : String) (keywords_dict : List (String × List String)) :
    List String :=
  let t := lowerList text.toList
  (keywords_dict.filter
    (fun p => p.2.any (fun term => searchWholeWord (lowerList term.toList) none t))).map
    Prod.fst

example : contains_keywords "There was a fire today" keywords = ["fire"] := by decide
example : contains_keywords "the firefighter arrived" keywords = [] := by decide
example : contains_keywords "campfire stories" keywords = [] := by decide

/-- One aggregation entry per category: `(category id, count, articles)`,
embedding one binding of the `stats` dictionary (script.py line 34). -/
abbrev Stats : Type := List (String × Nat × List String)

/-- Embeds the `stats` initializer (script.py line 34): one entry per
category of `keywords`, count `0`, empty article list, in taxonomy
order. -/
def initStats : Stats :=
  keywords.map (fun p => (p.1, 0, []))

/-- The effect of the recording step of `scrape_page` (script.py lines
288-290) on a single aggregation entry: an entry of another category
is untouched; for the matched category, if the link is not already in
the article list the count is incremented and the link appended
(lines 289-290), otherwise nothing happens (the guard at line
288). -/
def recordEntry (disaster link : String) (e : String × Nat × List String) :
    String × Nat × List String :=
  if e.1 = disaster then
    if link ∈ e.2.2 then e else (e.1, e.2.1 + 1, e.2.2 ++ [link])
  else e

/-- Embeds the recording step of `scrape_page` (script.py lines 288-290)
for one matched category on the whole store. -/
def recordMatch (s : Stats) (disaster link : String) : Stats :=
  s.map (recordEntry disaster link)

/-- Reads `stats[d]["count"]` from the embedded store (0 when the
category is absent, which never happens for taxonomy categories). -/
def statCount (s : Stats) (d : String) : Nat :=
  match s.find? (fun e => e.1 = d) with
  | some e => e.2.1
  | none => 0

/-- Reads `stats[d]["articles"]` from the embedded store. -/
def statArticles (s : Stats) (d : String) : List String :=
  match s.find? (fun e => e.1 = d) with
  | some e => e.2.2
  | none => []

/-- The spec's count/list invariant: every entry's count equals the
length of its article list. -/
def statsInv (s : Stats) : Prop :=
  ∀ e ∈ s, e.2.1 = e.2.2.length

/-- Embeds the `matched_disasters` expression of `scrape_page`
(script.py lines 279-281).  Python's `or` on lists short-circuits:
it yields the left operand when that list is non-empty and only then
evaluates to the right operand. -/
def matched_disasters (article_link article_title : String) : List String :=
  let a := contains_keywords article_link keywords
  if a = [] then contains_keywords article_title keywords else a

/-- Python `article_link.startswith("http")` (script.py line 275),
expressed on the character sequences. -/
def startsWithHttp (href : String) : Bool :=
  "http".toList.isPrefixOf href.toList

/-- Embeds the link normalization of `scrape_page` (script.py lines
275-276): prefix the site origin unless the href starts with
`"http"`. -/
def normalizeLink (href : String) : String :=
  if startsWithHttp href then href
  else "https://www.anandabazar.com" ++ href

/-- Embeds `generate_urls` (script.py lines 301-316): pages
`range(1, pages+1)`; the `"main"` section omits the section path
segment.  (`section` is a Lean keyword, so the parameter is `sect`.) -/
def generate_urls (sect : String) (pages : Nat) : List String :=
  if sect = "main" then
    (List.range' 1 pages).map
      (fun i => "https://www.anandabazar.com/west-bengal/page-" ++ toString i)
  else
    (List.range' 1 pages).map
      (fun i => "https://www.anandabazar.com/west-bengal/" ++ sect ++
        "/page-" ++ toString i)

/-- Embeds the retry loop of `scrape_page` (script.py lines 237-254).
`fetch attempt` tells whether the navigation plus readiness wait of
that attempt succeeds (the oracle standing for the external render
engine).  `remaining` is the number of loop iterations still to run
(`max_retries - attempt`).  The result is whether the loop exits via
`break` (success) or re-raises after the last attempt, paired with
the list of back-off sleeps performed, in order: after a failed
attempt that is not the last (`attempt < max_retries - 1`), the code
sleeps `2 ** attempt` seconds. -/
def retryAux (fetch : Nat → Bool) : Nat → Nat → Bool × List Nat
  | 0, _ => (false, [])
  | remaining + 1, attempt =>
    if fetch attempt then (true, [])
    else if remaining = 0 then (false, [])
    else
      let r := retryAux fetch remaining (attempt + 1)
      (r.1, 2 ^ attempt :: r.2)

/-- The retry loop as entered by `scrape_page`: `max_retries = 3`
iterations starting at attempt index 0 (script.py lines 237-238). -/
def retryFetch (fetch : Nat → Bool) : Bool × List Nat :=
  retryAux fetch 3 0

/-- State of the `WebDriverPool` (script.py lines 158-212) as used by
the sequentially modelled `scrape_page`: drivers are identified by
their creation index `0, 1, ...`; `inUse` holds the `in_use` flag of
driver `i` at position `i` (so `inUse.length` is `len(self.drivers)`);
`max_drivers` is the capacity. -/
structure PoolState where
  inUse : List Bool
  max_drivers : Nat
deriving DecidableEq, Repr

/-- The pool as initialized at script.py line 216: no drivers yet,
capacity 3. -/
def initPool : PoolState :=
  { inUse := [], max_drivers := 3 }

/-- Index of the first idle driver, scanning creation order — the first
`for driver in self.drivers` loop of `get_driver` (script.py lines
167-170). -/
def firstIdle : List Bool → Option Nat
  | [] => none
  | b :: bs =>
    if b then (firstIdle bs).map (· + 1) else some 0

/-- Embeds `get_driver` (script.py lines 164-197) as one atomic call:
return the first idle driver, else create a new one when below
capacity, else report that the caller would block (`none`; the
source busy-waits in that case).  The returned pool has the handed
out driver marked in use. -/
def get_driver (p : PoolState) : Option (Nat × PoolState) :=
  match firstIdle p.inUse with
  | some i => some (i, { p with inUse := p.inUse.set i true })
  | none =>
    if p.inUse.length < p.max_drivers then
      some (p.inUse.length, { p with inUse := p.inUse ++ [true] })
    else
      none

/-- Embeds `release_driver` (script.py lines 199-202): mark the driver
idle; a driver the pool does not own is ignored (`List.set` out of
range is the identity, matching the `if driver in self.drivers`
guard). -/
def release_driver (p : PoolState) (d : Nat) : PoolState :=
  { p with inUse := p.inUse.set d false }

/-- One article container as seen by the extraction loop (script.py
lines 263-276): `none` when `container.find("a")` yields no link
element; otherwise the link element's optional `href` attribute and
its stripped text. -/
abbrev Container : Type := Option (Option String × String)

/-- Environment of one `scrape_page` call: the behaviour of the
external render and parse engines for this URL.  `fetch` gives each
retry attempt's outcome; `pageOk` is whether reading and parsing the
page source after a successful fetch succeeds (a failure there is
caught by the page-level handler at script.py line 293); `containers`
is the parsed list of `div.imgntextbox` containers. -/
structure PageEnv where
  fetch : Nat → Bool
  pageOk : Bool
  containers : List Container

/-- The mutable module state touched by `scrape_page`: the
`processed_urls` registry (script.py line 37, modelled as a list
seen as a set), the `stats` store, and the driver pool. -/
structure ScrapeState where
  processed : List String
  stats : Stats
  pool : PoolState

/-- The initial module state (script.py lines 34, 37, 216). -/
def initState : ScrapeState :=
  { processed := [], stats := initStats, pool := initPool }

/-- Terminal outcome of one `scrape_page` call.  The source signals
these by early return (`skipped`), normal completion (`success`), or
the page-level `except` handler swallowing the re-raised fetch error
or a parse error (`abandoned`); `blocked` models the busy-wait in
`get_driver` when the pool is exhausted, which never terminates. -/
inductive Outcome
  | skipped
  | success
  | abandoned
  | blocked
deriving DecidableEq, Repr

/-- Embeds the body of the extraction loop for one container (script.py
lines 263-290): skip a container without a link element or with a
falsy (`None` or empty) href; normalize the link; compute
`matched_disasters` (note the `or` of line 281 applies to the whole
keyword lists); record every matched category. -/
def processContainer (st : Stats) (c : Container) : Stats :=
  match c with
  | none => st
  | some (href?, title) =>
    match href? with
    | none => st
    | some href =>
      if href = "" then st
      else
        let article_link := normalizeLink href
        (matched_disasters article_link title).foldl
          (fun acc d => recordMatch acc d article_link) st

/-- Embeds `scrape_page` (script.py lines 219-298) on the explicit
module state.  Control flow of the source: return early when the URL
was already processed; otherwise register the URL, take a driver from
the pool, run the retry loop; on fetch success parse the page and run
the container loop, on exhausted retries (or a page-level parse
error) fall into the `except` at line 293; the `finally` at line 295
releases the driver on every one of those paths. -/
def scrape_page (env : PageEnv) (url : String) (s : ScrapeState) :
    Outcome × ScrapeState :=
  if url ∈ s.processed then (.skipped, s)
  else
    let s1 : ScrapeState := { s with processed := s.processed ++ [url] }
    match get_driver s1.pool with
    | none => (.blocked, s1)
    | some (d, pool1) =>
      if (retryFetch env.fetch).1 then
        if env.pageOk then
          (.success,
            { s1 with
              stats := env.containers.foldl processContainer s1.stats
              pool := release_driver pool1 d })
        else
          (.abandoned, { s1 with pool := release_driver pool1 d })
      else
        (.abandoned, { s1 with pool := release_driver pool1 d })

/-- One batch of `scrape_section` (script.py lines 331-332), modelled
sequentially: every URL of the batch is handed to `scrape_page`, each
call running to its terminal outcome. -/
def runBatch (envs : String → PageEnv) (urls : List String) (s : ScrapeState) :
    ScrapeState :=
  urls.foldl (fun st u => (scrape_page (envs u) u st).2) s

/-- Follows the spec's words for claim C7 only (the source is the
authority for `normalizeLink`): whether a destination string carries
a URI scheme, i.e. starts with an ALPHA followed by a run of
ALPHA / DIGIT / `+` / `-` / `.` characters and then a colon. -/
def specSchemeTail : List Char → Bool
  | [] => false
  | c :: cs => c = ':' || ((c.isAlphanum || c = '+' || c = '-' || c = '.') && specSchemeTail cs)

/-- Follows the spec's words for claim C7: the destination "has a
scheme" exactly when a scheme component precedes a colon. -/
def specHasScheme (s : String) : Bool :=
  match s.toList with
  | [] => false
  | c :: cs => c.isAlpha && specSchemeTail cs

/-- Claim C6: the category matcher is case-insensitive and whole-word
with regex `\b` semantics — `"There was a fire today"` matches the
category `fire` (also when written `FIRE`), while `"the firefighter
arrived"` and `"campfire stories"` match nothing: a trigger term
occurring only inside a larger word never counts. -/
theorem contains_keywords_word_boundary :
    contains_keywords "There was a fire today" keywords = ["fire"] ∧
    contains_keywords "There was a FIRE today" keywords = ["fire"] ∧
    contains_keywords "the firefighter arrived" keywords = [] ∧
    contains_keywords "campfire stories" keywords = [] := by
  decide

/-- Claim C1 (violated by the code): with destination
`".../flood-warning-issued"` (matching only `flood`) and title
`"Cyclone alert for the coast"` (matching only `cyclone`), the
short-circuiting `or` of script.py line 281 returns the destination's
category list alone, so `cyclone` is dropped even though the title
matches it; the spec's OR-of-texts semantics demands both.  The
destination-only multi-category case, by contrast, does produce both
categories. -/
theorem matched_disasters_drops_title_categories :
    contains_keywords "https://www.anandabazar.com/flood-warning-issued" keywords
      = ["flood"] ∧
    contains_keywords "Cyclone alert for the coast" keywords = ["cyclone"] ∧
    matched_disasters "https://www.anandabazar.com/flood-warning-issued"
      "Cyclone alert for the coast" = ["flood"] ∧
    "cyclone" ∉ matched_disasters "https://www.anandabazar.com/flood-warning-issued"
      "Cyclone alert for the coast" ∧
    matched_disasters "https://www.anandabazar.com/flood-cyclone-damage" "no match here"
      = ["flood", "cyclone"] := by
  decide

/-- Claim C7 as stated is false: `"ftp://files.example.com/a.zip"`
carries a scheme, yet `scrape_page` prefixes it with the site origin
(the code tests `startswith("http")`, not "has a scheme"), so a
destination with a scheme is not left unchanged. -/
theorem normalizeLink_scheme_counterexample :
    specHasScheme "ftp://files.example.com/a.zip" = true ∧
    normalizeLink "ftp://files.example.com/a.zip" ≠ "ftp://files.example.com/a.zip" := by
  decide

/-- Claim C7 amended: the destination is left unchanged exactly when it
starts with the four characters `"http"`; otherwise the fixed site
origin is prepended. -/
theorem normalizeLink_prefix_iff_http (d : String) :
    (normalizeLink d = d ↔ startsWithHttp d = true) ∧
    (startsWithHttp d = false →
      normalizeLink d = "https://www.anandabazar.com" ++ d) := by
  by_cases h : startsWithHttp d
  · simp [normalizeLink, h]
  · simp only [Bool.not_eq_true] at h
    refine ⟨?_, fun _ => by simp [normalizeLink, h]⟩
    simp only [normalizeLink, h, Bool.false_eq_true, if_false]
    constructor
    · intro heq
      have hlen := congrArg String.length heq
      simp [String.length_append] at hlen
      exact absurd hlen (by decide)
    · intro hc
      exact absurd hc (by simp [h])

/-- Witness for `normalizeLink_prefix_iff_http` at the concrete relative
destination `"/west-bengal/x"`. -/
theorem normalizeLink_prefix_iff_http_witness :
    startsWithHttp "/west-bengal/x" = false ∧
    normalizeLink "/west-bengal/x" = "https://www.anandabazar.com" ++ "/west-bengal/x" :=
  ⟨by decide, (normalizeLink_prefix_iff_http "/west-bengal/x").2 (by decide)⟩

/-- Claim C8: `generate_urls` returns exactly `pages` URLs; for
`1 ≤ n ≤ pages` the `n`-th URL (position `n-1`, so ascending in `n`)
is `https://www.anandabazar.com/west-bengal/<sect>/page-<n>`, with
the section segment omitted for the distinguished `"main"`
section. -/
theorem generate_urls_spec (sect : String) (pages n : Nat)
    (h1 : 1 ≤ n) (h2 : n ≤ pages) :
    (generate_urls sect pages).length = pages ∧
    (generate_urls sect pages)[n - 1]? =
      some (if sect = "main" then
              "https://www.anandabazar.com/west-bengal/page-" ++ toString n
            else
              "https://www.anandabazar.com/west-bengal/" ++ sect ++ "/page-" ++ toString n) := by
  have hlt : n - 1 < pages := by omega
  have hn : 1 + (n - 1) = n := by omega
  by_cases h : sect = "main" <;>
    simp [generate_urls, h, List.getElem?_map, List.getElem?_range', hlt, hn]

/-- Witness for `generate_urls_spec`: the second page of the
`nadia-murshidabad` section. -/
theorem generate_urls_spec_witness :
    (1 ≤ 2 ∧ 2 ≤ 2) ∧
    ((generate_urls "nadia-murshidabad" 2).length = 2 ∧
      (generate_urls "nadia-murshidabad" 2)[2 - 1]? =
        some (if "nadia-murshidabad" = "main" then
                "https://www.anandabazar.com/west-bengal/page-" ++ toString 2
              else
                "https://www.anandabazar.com/west-bengal/" ++ "nadia-murshidabad" ++
                  "/page-" ++ toString 2)) :=
  ⟨⟨by decide, by decide⟩,
    generate_urls_spec "nadia-murshidabad" 2 2 (by decide) (by decide)⟩

/-- Recording the same (category, link) pair twice on one entry is the
same as recording it once. -/
lemma recordEntry_idem (d l : String) (e : String × Nat × List String) :
    recordEntry d l (recordEntry d l e) = recordEntry d l e := by
  by_cases h1 : e.1 = d
  · by_cases h2 : l ∈ e.2.2
    · simp [recordEntry, h1, h2]
    · simp [recordEntry, h1, h2]
  · simp [recordEntry, h1]

/-- `recordEntry` preserves the count/list relation of an entry. -/
lemma recordEntry_inv (d l : String) (e : String × Nat × List String)
    (h : e.2.1 = e.2.2.length) :
    (recordEntry d l e).2.1 = (recordEntry d l e).2.2.length := by
  by_cases h1 : e.1 = d
  · by_cases h2 : l ∈ e.2.2
    · simpa [recordEntry, h1, h2] using h
    · simp [recordEntry, h1, h2, h]
  · simpa [recordEntry, h1] using h

/-- `recordMatch` preserves the store invariant. -/
lemma statsInv_recordMatch (s : Stats) (d l : String) (h : statsInv s) :
    statsInv (recordMatch s d l) := by
  intro e he
  simp only [recordMatch, List.mem_map] at he
  obtain ⟨a, ha, rfl⟩ := he
  exact recordEntry_inv d l a (h a ha)

/-- Folding `recordMatch` over any category list preserves the store
invariant (the inner loop of script.py lines 287-290). -/
lemma statsInv_foldl_recordMatch (ds : List String) (l : String) :
    ∀ s : Stats, statsInv s →
      statsInv (ds.foldl (fun acc d => recordMatch acc d l) s) := by
  induction ds with
  | nil => intro s h; exact h
  | cons d ds ih =>
    intro s h
    exact ih _ (statsInv_recordMatch s d l h)

/-- Processing one container preserves the store invariant. -/
lemma statsInv_processContainer (st : Stats) (c : Container) (h : statsInv st) :
    statsInv (processContainer st c) := by
  match c with
  | none => exact h
  | some (none, _) => exact h
  | some (some href, title) =>
    by_cases he : href = ""
    · simpa [processContainer, he] using h
    · simpa [processContainer, he] using
        statsInv_foldl_recordMatch
          (matched_disasters (normalizeLink href) title) (normalizeLink href) st h

/-- Processing a whole container list preserves the store invariant. -/
lemma statsInv_foldl_containers (cs : List Container) :
    ∀ st : Stats, statsInv st → statsInv (cs.foldl processContainer st) := by
  induction cs with
  | nil => intro st h; exact h
  | cons c cs ih =>
    intro st h
    exact ih _ (statsInv_processContainer st c h)

/-- Claim C2: the count/list invariant holds at every observable point:
it holds for the freshly initialized store, every single
`recordMatch` step preserves it, and a whole `scrape_page` call
(which performs every classification/recording step of one page)
preserves it. -/
theorem stats_count_invariant :
    statsInv initStats ∧
    (∀ (s : Stats) (d l : String), statsInv s → statsInv (recordMatch s d l)) ∧
    (∀ (env : PageEnv) (url : String) (s : ScrapeState),
      statsInv s.stats → statsInv (scrape_page env url s).2.stats) := by
  refine ⟨?_, statsInv_recordMatch, ?_⟩
  · unfold statsInv
    decide
  intro env url s h
  unfold scrape_page
  by_cases hp : url ∈ s.processed
  · simpa [hp] using h
  · rw [if_neg hp]
    rcases hg : get_driver s.pool with _ | ⟨d, pool1⟩ <;>
      simp only [hg] <;>
      [skip;
       by_cases hf : (retryFetch env.fetch).1 <;>
         [by_cases hk : env.pageOk <;> simp [hf, hk];
          simp [hf]]] <;>
      first
        | exact h
        | exact statsInv_foldl_containers env.containers s.stats h

/-- Witness for `stats_count_invariant`: the preservation clauses applied
to the initial store and a concrete page. -/
theorem stats_count_invariant_witness :
    statsInv initStats ∧
    statsInv (recordMatch initStats "fire" "https://www.anandabazar.com/f") ∧
    statsInv (scrape_page
      { fetch := fun _ => true, pageOk := true,
        containers := [some (some "/fire-report", "Fire report")] }
      "https://www.anandabazar.com/west-bengal/page-1" initState).2.stats :=
  ⟨stats_count_invariant.1,
    stats_count_invariant.2.1 initStats "fire" "https://www.anandabazar.com/f"
      (by unfold statsInv; decide),
    stats_count_invariant.2.2 _ _ initState (by unfold statsInv; decide)⟩

/-- A page environment in which every fetch succeeds and the single
container links to the `fire`-matching destination
`/fire-breaks-out-in-market`; used to replay the spec's
two-listing-pages deduplication scenario. -/
def fireEnvs : String → PageEnv := fun _ =>
  { fetch := fun _ => true, pageOk := true,
    containers := [some (some "/fire-breaks-out-in-market", "Fire in the market")] }

/-- Claim C5: recording is idempotent per (category, link) — recording
the same pair twice equals recording it once on every store — and in
the concrete two-listing-pages scenario where both pages carry a
container linking to the same `fire` destination, the final `fire`
count is 1 with a single article entry. -/
theorem recordMatch_idempotent :
    (∀ (s : Stats) (d l : String),
      recordMatch (recordMatch s d l) d l = recordMatch s d l) ∧
    statCount (runBatch fireEnvs
      ["https://www.anandabazar.com/west-bengal/page-1",
       "https://www.anandabazar.com/west-bengal/page-2"] initState).stats "fire" = 1 ∧
    statArticles (runBatch fireEnvs
      ["https://www.anandabazar.com/west-bengal/page-1",
       "https://www.anandabazar.com/west-bengal/page-2"] initState).stats "fire" =
      ["https://www.anandabazar.com/fire-breaks-out-in-market"] := by
  refine ⟨?_, by decide, by decide⟩
  intro s d l
  simp only [recordMatch, List.map_map]
  exact List.map_congr_left (fun e _ => recordEntry_idem d l e)

/-- Claim C9: a `scrape_page` call on a URL already in the seen-URL
registry returns `Skipped` at once and leaves the whole module state
— registry, aggregation store, and driver pool — untouched (in
particular no driver is acquired). -/
theorem scrape_page_skips_processed (env : PageEnv) (url : String)
    (s : ScrapeState) (h : url ∈ s.processed) :
    scrape_page env url s = (.skipped, s) := by
  simp [scrape_page, h]

/-- Witness for `scrape_page_skips_processed` on a state that has
already processed the page-1 URL. -/
theorem scrape_page_skips_processed_witness :
    "https://www.anandabazar.com/west-bengal/page-1" ∈
      ({ processed := ["https://www.anandabazar.com/west-bengal/page-1"],
         stats := initStats, pool := initPool } : ScrapeState).processed ∧
    scrape_page (fireEnvs "x") "https://www.anandabazar.com/west-bengal/page-1"
      { processed := ["https://www.anandabazar.com/west-bengal/page-1"],
        stats := initStats, pool := initPool } =
      (.skipped,
       { processed := ["https://www.anandabazar.com/west-bengal/page-1"],
         stats := initStats, pool := initPool }) :=
  ⟨by decide,
    scrape_page_skips_processed (fireEnvs "x")
      "https://www.anandabazar.com/west-bengal/page-1"
      { processed := ["https://www.anandabazar.com/west-bengal/page-1"],
        stats := initStats, pool := initPool } (by decide)⟩

/-- `firstIdle` returns an index inside the flag list. -/
lemma firstIdle_lt (l : List Bool) (i : Nat) (h : firstIdle l = some i) :
    i < l.length := by
  induction l generalizing i with
  | nil => simp [firstIdle] at h
  | cons b bs ih =>
    simp only [firstIdle] at h
    by_cases hb : b = true
    · rw [if_pos hb, Option.map_eq_some'] at h
      obtain ⟨j, hj, rfl⟩ := h
      simpa using Nat.succ_lt_succ (ih j hj)
    · rw [if_neg hb] at h
      cases h
      simp

/-- The driver handed out by `get_driver` is a valid index of the
resulting pool's flag list. -/
lemma get_driver_index_lt (p : PoolState) (d : Nat) (p1 : PoolState)
    (h : get_driver p = some (d, p1)) : d < p1.inUse.length := by
  unfold get_driver at h
  rcases hfi : firstIdle p.inUse with _ | i <;> rw [hfi] at h
  · by_cases hlen : p.inUse.length < p.max_drivers
    · rw [if_pos hlen] at h
      cases h
      simp
    · rw [if_neg hlen] at h
      cases h
  · cases h
    simpa using firstIdle_lt p.inUse d hfi

/-- Claim C4: whenever a `scrape_page` call actually acquires a driver
from the pool (the URL is new and `get_driver` hands out `d`), the
driver is idle again in the pool state after the call, on every
terminal path — successful extraction, page-level error after a
successful fetch, and abandonment after exhausted retries. -/
theorem scrape_page_releases_driver (env : PageEnv) (url : String)
    (s : ScrapeState) (d : Nat) (p1 : PoolState)
    (hnew : url ∉ s.processed)
    (hget : get_driver s.pool = some (d, p1)) :
    (scrape_page env url s).2.pool.inUse[d]? = some false := by
  have hd : d < p1.inUse.length := get_driver_index_lt s.pool d p1 hget
  unfold scrape_page
  rw [if_neg hnew]
  simp only [hget]
  by_cases hf : (retryFetch env.fetch).1
  · by_cases hk : env.pageOk <;>
      simp [hf, hk, release_driver, List.getElem?_set, hd]
  · simp [hf, release_driver, List.getElem?_set, hd]

/-- Witness for `scrape_page_releases_driver`: from the initial state,
a fetch that fails all three attempts acquires driver 0, and driver 0
is idle after the call. -/
theorem scrape_page_releases_driver_witness :
    ("https://www.anandabazar.com/west-bengal/page-1" ∉
        (initState : ScrapeState).processed) ∧
    get_driver initState.pool = some (0, { inUse := [true], max_drivers := 3 }) ∧
    (scrape_page { fetch := fun _ => false, pageOk := true, containers := [] }
        "https://www.anandabazar.com/west-bengal/page-1"
        initState).2.pool.inUse[0]? = some false :=
  ⟨by decide, by decide,
    scrape_page_releases_driver
      { fetch := fun _ => false, pageOk := true, containers := [] }
      "https://www.anandabazar.com/west-bengal/page-1" initState 0
      { inUse := [true], max_drivers := 3 } (by decide) (by decide)⟩

/-- After any `scrape_page` call, its URL is in the seen-URL registry
(either it already was, or the call added it before fetching). -/
lemma scrape_page_mem_processed (env : PageEnv) (url : String) (s : ScrapeState) :
    url ∈ (scrape_page env url s).2.processed := by
  unfold scrape_page
  by_cases hp : url ∈ s.processed
  · simp [hp]
  · rw [if_neg hp]
    rcases hg : get_driver s.pool with _ | ⟨d, pool1⟩ <;> simp only [hg]
    · simp
    · by_cases hf : (retryFetch env.fetch).1 <;>
        [by_cases hk : env.pageOk <;> simp [hf, hk]; simp [hf]]

/-- An environment whose fetches always fail, with otherwise benign
page content; used to witness the abandonment path. -/
def failEnvs : String → PageEnv := fun _ =>
  { fetch := fun _ => false, pageOk := true, containers := [] }

/-- Claim C3: the retry controller runs at most 3 attempts (indices
0, 1, 2) and sleeps exactly `2^attempt` seconds after each failed
non-final attempt: an attempt oracle failing at 0 and 1 and
succeeding at 2 yields a successful fetch after back-offs of
`2^0` and `2^1` seconds with no error surfaced; an oracle failing at
all three yields back-offs `2^0, 2^1` and an unsuccessful fetch, and
the corresponding `scrape_page` call terminates with `Abandoned`
while the rest of the batch is still processed. -/
theorem retry_policy (f : Nat → Bool) :
    (f 0 = false → f 1 = false → f 2 = true → retryFetch f = (true, [2 ^ 0, 2 ^ 1])) ∧
    ((∀ i, f i = false) →
      retryFetch f = (false, [2 ^ 0, 2 ^ 1]) ∧
      ∀ (envs : String → PageEnv) (u1 u2 : String),
        (envs u1).fetch = f → u1 ≠ u2 →
        (scrape_page (envs u1) u1 initState).1 = .abandoned ∧
        u2 ∈ (runBatch envs [u1, u2] initState).processed) := by
  constructor
  · intro h0 h1 h2
    simp [retryFetch, retryAux, h0, h1, h2]
  · intro hf
    have hr : retryFetch f = (false, [2 ^ 0, 2 ^ 1]) := by
      simp [retryFetch, retryAux, hf 0, hf 1, hf 2]
    refine ⟨hr, ?_⟩
    intro envs u1 u2 hfe hne
    have hmem : u1 ∉ (initState : ScrapeState).processed := by
      simp [initState]
    have hget : get_driver (initState : ScrapeState).pool
        = some (0, { inUse := [true], max_drivers := 3 }) := by decide
    constructor
    · unfold scrape_page
      rw [if_neg hmem]
      simp only [hget, hfe, hr]
      simp
    · exact scrape_page_mem_processed (envs u2) u2 _

/-- Witness for `retry_policy`: the fail-fail-succeed oracle fetches
successfully with back-offs 1 and 2; the always-failing oracle
abandons page 1 of a two-page batch and the second page is still
processed. -/
theorem retry_policy_witness :
    retryFetch (fun i => i == 2) = (true, [2 ^ 0, 2 ^ 1]) ∧
    retryFetch (fun _ => false) = (false, [2 ^ 0, 2 ^ 1]) ∧
    (scrape_page (failEnvs "https://www.anandabazar.com/west-bengal/page-1")
        "https://www.anandabazar.com/west-bengal/page-1" initState).1 = .abandoned ∧
    "https://www.anandabazar.com/west-bengal/page-2" ∈
      (runBatch failEnvs
        ["https://www.anandabazar.com/west-bengal/page-1",
         "https://www.anandabazar.com/west-bengal/page-2"] initState).processed := by
  have h1 := (retry_policy (fun i => i == 2)).1 rfl rfl rfl
  have h2 := (retry_policy (fun _ => false)).2 (fun _ => rfl)
  have h3 := h2.2 failEnvs "https://www.anandabazar.com/west-bengal/page-1"
    "https://www.anandabazar.com/west-bengal/page-2" rfl (by decide)
  exact ⟨h1, h2.1, h3.1, h3.2⟩

/-- Program counter of one thread inside the driver-scan loop of
`get_driver` (script.py lines 167-170 and 192-197).  `scan`: about to
execute the read `self.in_use.get(driver, False)`; `claim`: the read
observed `False` and the thread is about to execute
`self.in_use[driver] = True` followed by `return driver`; `done`:
returned. -/
inductive ThreadPc
  | scan
  | claim
  | done
deriving DecidableEq, Repr

/-- Interleaved state of two threads A and B concurrently inside
`get_driver` on a pool owning exactly one driver (index 0): the
driver's shared `in_use` flag and each thread's position and returned
driver.  `get_driver` contains no lock, so the read and the write of
the flag are separate atomic actions between which the scheduler may
switch threads. -/
structure RaceState where
  inUse0 : Bool
  pcA : ThreadPc
  pcB : ThreadPc
  retA : Option Nat
  retB : Option Nat
deriving DecidableEq, Repr

/-- Both threads have just entered `get_driver`; the single driver is
idle. -/
def raceInit : RaceState :=
  { inUse0 := false, pcA := .scan, pcB := .scan, retA := none, retB := none }

/-- One atomic action of either thread, at the granularity the source
gives the Python interpreter: the membership read
`self.in_use.get(driver, False)` (script.py line 168) and the
write-and-return `self.in_use[driver] = True; return driver`
(script.py lines 169-170) are distinct steps on the shared flag. -/
inductive raceStep : RaceState → RaceState → Prop
  | readA (s : RaceState) (h : s.pcA = .scan) :
      raceStep s { s with pcA := if s.inUse0 then .scan else .claim }
  | writeA (s : RaceState) (h : s.pcA = .claim) :
      raceStep s { s with inUse0 := true, pcA := .done, retA := some 0 }
  | readB (s : RaceState) (h : s.pcB = .scan) :
      raceStep s { s with pcB := if s.inUse0 then .scan else .claim }
  | writeB (s : RaceState) (h : s.pcB = .claim) :
      raceStep s { s with inUse0 := true, pcB := .done, retB := some 0 }

/-- Claim C10 (violated by the code): `get_driver` performs no
serialization, so an interleaving of two concurrent `get_driver`
calls exists — both threads read the idle flag before either writes
it — after which both calls have returned the same driver handle 0,
contradicting "a handle is never concurrently returned to two
callers". -/
theorem pool_double_acquire_race :
    ∃ s : RaceState, Relation.ReflTransGen raceStep raceInit s ∧
      s.retA = some 0 ∧ s.retB = some 0 := by
  refine ⟨{ inUse0 := true, pcA := .done, pcB := .done,
            retA := some 0, retB := some 0 }, ?_, rfl, rfl⟩
  have t1 : raceStep raceInit
      { inUse0 := false, pcA := .claim, pcB := .scan, retA := none, retB := none } :=
    raceStep.readA raceInit rfl
  have t2 : raceStep
      { inUse0 := false, pcA := .claim, pcB := .scan, retA := none, retB := none }
      { inUse0 := false, pcA := .claim, pcB := .claim, retA := none, retB := none } :=
    raceStep.readB _ rfl
  have t3 : raceStep
      { inUse0 := false, pcA := .claim, pcB := .claim, retA := none, retB := none }
      { inUse0 := true, pcA := .done, pcB := .claim, retA := some 0, retB := none } :=
    raceStep.writeA _ rfl
  have t4 : raceStep
      { inUse0 := true, pcA := .done, pcB := .claim, retA := some 0, retB := none }
      { inUse0 := true, pcA := .done, pcB := .done, retA := some 0, retB := some 0 } :=
    raceStep.writeB _ rfl
  exact .head t1 (.head t2 (.head t3 (.head t4 .refl)))

end Scraper
